import Mathlib

set_option maxHeartbeats 1000000
set_option maxRecDepth 8000

-- Verification of the day-scaffolding template library
-- (src/day00/rust/mr-kaffee/template/src/lib.rs).
--
-- Strings are modelled as `List Char`; filesystem paths as lists of
-- components (`PathC`).  The filesystem is a list of directories plus an
-- association list of files (newest entry first, so writing shadows older
-- entries, i.e. overwrites).  Directory creation and file writes always
-- succeed in the model (the claims under verification all assume
-- successful raw I/O); the error paths that remain are exactly the ones the
-- library itself produces: the lib-path UTF-8 conversion failure, the
-- AlreadyExists check, and propagated provider errors.

abbrev PathC := List String

structure FileSys where
  dirs : List PathC
  files : List (PathC × List Char)

/-- First-match lookup in the file association list (later writes are
prepended, so the first match is the current content). -/
def fileAt : List (PathC × List Char) → PathC → Option (List Char)
  | [], _ => none
  | e :: rest, p => if e.1 = p then some e.2 else fileAt rest p

/-- Models `Path::exists`: the path is present as a directory or a file. -/
def pathExists (fs : FileSys) (p : PathC) : Bool :=
  decide (p ∈ fs.dirs) || (fileAt fs.files p).isSome

/-- All non-empty prefixes of a path (the path itself and its ancestors). -/
def allPrefixes (p : PathC) : List PathC :=
  (List.range p.length).map (fun i => p.take (i + 1))

/-- Models `fs::create_dir_all`: creates the directory and all missing
intermediate directories; succeeds also when they already exist. -/
def mkdirAll (fs : FileSys) (p : PathC) : FileSys :=
  ⟨allPrefixes p ++ fs.dirs, fs.files⟩

/-- Models `fs::write`: create the file or truncate-and-overwrite it. -/
def writeFS (fs : FileSys) (p : PathC) (c : List Char) : FileSys :=
  ⟨fs.dirs, (p, c) :: fs.files⟩

inductive EKind where
  | alreadyExists
  | other
deriving DecidableEq

/-- Models `std::io::Error` as far as the library observes it: an
`ErrorKind` plus the formatted message text. -/
structure WFError where
  kind : EKind
  msg : List Char
deriving DecidableEq

/-- The `InputProvider` trait: `load_input(year, day) -> Result<String, Error>`. -/
abbrev Provider := Nat → Nat → Except WFError (List Char)

/-- Decimal digit character, as produced by Rust `Display` for integers. -/
def digitChar : Nat → Char
  | 0 => '0'
  | 1 => '1'
  | 2 => '2'
  | 3 => '3'
  | 4 => '4'
  | 5 => '5'
  | 6 => '6'
  | 7 => '7'
  | 8 => '8'
  | 9 => '9'
  | _ => '*'

def natCharsGo : Nat → Nat → List Char → List Char
  | 0, _, acc => acc
  | fuel + 1, n, acc =>
    if n < 10 then digitChar n :: acc
    else natCharsGo fuel (n / 10) (digitChar (n % 10) :: acc)

/-- Decimal rendering of a natural number, modelling `format!` on `u16`/`u8`
(most significant digit first, no leading zeros, `0` renders as `"0"`). -/
def natChars (n : Nat) : List Char := natCharsGo (n + 1) n []

/-- Models `format!("\x7b\x7b\x7b\x7d\x7d\x7d", name)`: the delimiter-wrapped
placeholder text of a variable name. -/
def placeholderOf (name : List Char) : List Char := '{' :: (name ++ ['}'])

/-- Scanner for `str::replace` with a non-empty pattern.  The `Nat` argument
counts pattern characters still to be skipped after a match (the list
argument strictly decreases, so the recursion is structural). -/
def replaceGo (pat rep : List Char) : Nat → List Char → List Char
  | _, [] => []
  | Nat.succ skip, _ :: rest => replaceGo pat rep skip rest
  | 0, c :: rest =>
    if pat <+: c :: rest then rep ++ replaceGo pat rep (pat.length - 1) rest
    else c :: replaceGo pat rep 0 rest

/-- Models Rust `str::replace`: replace every non-overlapping occurrence of
`pat` in `s` by `rep`, scanning left to right.  (For the empty pattern Rust
matches at every character boundary; the library only ever calls this with
patterns of the shape `\x7bNAME\x7d`, which are never empty.) -/
def strReplace (s pat rep : List Char) : List Char :=
  if pat = [] then rep ++ (s.map (fun c => c :: rep)).flatten
  else replaceGo pat rep 0 s

/-- The substitution loop of `write_file`: fold `content.replace("\x7bname\x7d", value)`
over the variable bindings, in iteration order. -/
def renderTemplate (template : List Char) (vars : List (List Char × List Char)) : List Char :=
  vars.foldl (fun content nv => strReplace content (placeholderOf nv.1) nv.2) template

/-- Models `write_file`: substitute the variables into the template and write
the result to `path`. -/
def write_file (template : List Char) (vars : List (List Char × List Char))
    (path : PathC) (fs : FileSys) : FileSys :=
  writeFS fs path (renderTemplate template vars)

/-- Display of a path, modelling `Path::to_string_lossy` for the purpose of
the error message (components joined by the path separator). -/
def displayPath : PathC → List Char
  | [] => []
  | [s] => s.data
  | s :: rest => s.data ++ '/' :: displayPath rest

def alreadyExistsMsg (target : PathC) : List Char :=
  "The target directory \x27".data ++ displayPath target ++
    "\x27 exists. Use the --force option to overwrite.".data

/-- The variable map built by `write_files` (`HashMap::from`), in source
order; the iteration order of the `HashMap` is modelled by a `shuffle`
parameter of `write_files`. -/
def canonicalVars (libStr : List Char) (year day : Nat) : List (List Char × List Char) :=
  [("AOC_PATH".data, libStr), ("YEAR".data, natChars year), ("DAY".data, natChars day)]

def GITIGNORE : List Char := "**/target\n".data

def CARGO_TOML : List Char :=
  ("[package]\nname = \"mr-kaffee-\x7bYEAR\x7d-\x7bDAY\x7d\"\nversion = \"0.1.0\"\nedition = \"2021\"\n\n# See more keys and their definitions at https://doc.rust-lang.org/cargo/reference/manifest.html\n\n[dependencies]\n\nmr-kaffee-aoc = \x7b path = \"\x7bAOC_PATH\x7d\" \x7d\n").data

def MAIN_RS : List Char :=
  ("use mr_kaffee_aoc::\x7berr::PuzzleError, GenericPuzzle\x7d;\nuse mr_kaffee_\x7bYEAR\x7d_\x7bDAY\x7d::*;\n\nfn main() -> Result<(), PuzzleError> \x7b\n    puzzle().solve_report_err()\n\x7d\n").data

def LIB_RS : List Char :=
  ("use mr_kaffee_aoc::\x7bPuzzle, Star\x7d;\nuse input::*;\n\n/// the puzzle\npub fn puzzle() -> Puzzle<PuzzleData, usize, usize, usize, usize> \x7b\n    Puzzle \x7b\n        year: \x7bYEAR\x7d,\n        day: \x7bDAY\x7d,\n        input: include_str!(\"../input.txt\"),\n        star1: Some(Star \x7b\n            name: \"Star 1\",\n            f: &star_1,\n            exp: None,\n        \x7d),\n        star2: Some(Star \x7b\n            name: \"Star 2\",\n            f: &star_2,\n            exp: None,\n        \x7d),\n    \x7d\n\x7d\n\npub mod input \x7b\n    use core::fmt;\n    use std::\x7bconvert::Infallible, str::FromStr\x7d;\n\n    #[derive(Debug)]\n    pub struct PuzzleData \x7b\n        input: String,\n    \x7d\n\n    impl FromStr for PuzzleData \x7b\n        type Err = Infallible;\n\n        /// parse the puzzle input\n        ///\n        /// # Examples\n        /// \x60\x60\x60\n        /// # use mr_kaffee_\x7bYEAR\x7d_\x7bDAY\x7d::input::*;\n        /// let data = \"Hello World\".parse::<PuzzleData>().unwrap();\n        /// assert_eq!(\"Hello World\", format!(\"\x7b\x7d\", data));\n        /// \x60\x60\x60    \n        fn from_str(s: &str) -> Result<Self, Self::Err> \x7b\n            Ok(PuzzleData \x7b input: s.into() \x7d)\n        \x7d\n    \x7d\n\n    impl fmt::Display for PuzzleData \x7b\n        fn fmt(&self, f: &mut fmt::Formatter<\x27_>) -> fmt::Result \x7b\n            self.input.fmt(f)\n        \x7d\n    \x7d\n\x7d\n\npub fn star_1(data: &PuzzleData) -> usize \x7b\n    println!(\"\x7b\x7d\", data);\n    0\n\x7d\n\npub fn star_2(data: &PuzzleData) -> usize \x7b\n    println!(\"\x7b:?\x7d\", data);\n    0\n\x7d\n\n#[cfg(test)]\nmod tests \x7b\n    use super::*;\n    use mr_kaffee_aoc::err::PuzzleError;\n\n    const CONTENT: &str = r#\"Hello World!\nFreedom\"#;\n\n    #[test]\n    pub fn test_puzzle_data_from_str() -> Result<(), PuzzleError> \x7b\n        let data = CONTENT.parse::<PuzzleData>()?;\n        assert_eq!(format!(\"\x7b\x7d\", data), CONTENT.to_string());\n        Ok(())\n    \x7d\n\x7d\n").data

/-- Models `write_files`.  `libPath` is a `Path` observed through `to_str`
(`none` models a path that is not valid UTF-8); `shuffle` models the
unspecified iteration order of the `HashMap` of variables (it is applied once
per invocation, matching the fact that iterating the same map repeatedly
within one call yields one fixed order).  The returned pair is the call's
`Result` together with the filesystem after the call. -/
def write_files (fs : FileSys) (target : PathC) (libPath : Option (List Char))
    (provider : Provider) (year day : Nat) (force : Bool)
    (shuffle : List (List Char × List Char) → List (List Char × List Char)) :
    Except WFError Unit × FileSys :=
  match libPath with
  | none => (Except.error ⟨EKind.other, "Can\x27t convert lib path to str".data⟩, fs)
  | some libStr =>
    let vars := shuffle (canonicalVars libStr year day)
    if pathExists fs target && !force then
      (Except.error ⟨EKind.alreadyExists, alreadyExistsMsg target⟩, fs)
    else
      let srcPath := target ++ ["src"]
      let fs1 := mkdirAll fs srcPath
      match provider year day with
      | Except.error e => (Except.error e, fs1)
      | Except.ok inputText =>
        let fs2 := write_file inputText [] (target ++ ["input.txt"]) fs1
        let fs3 := write_file GITIGNORE vars (target ++ [".gitignore"]) fs2
        let fs4 := write_file CARGO_TOML vars (target ++ ["Cargo.toml"]) fs3
        let fs5 := write_file MAIN_RS vars (srcPath ++ ["main.rs"]) fs4
        let fs6 := write_file LIB_RS vars (srcPath ++ ["lib.rs"]) fs5
        (Except.ok (), fs6)

/-- The deterministic test provider from the library's test module:
`Ok(format!("Test input for \x7b\x7d/\x7b\x7d\n", year, day))`. -/
def testProvider : Provider := fun year day =>
  Except.ok ("Test input for ".data ++ natChars year ++ "/".data ++ natChars day ++ "\n".data)

structure HttpRequest where
  method : List Char
  url : List Char
  headers : List (List Char × List Char)

/-- An HTTP response, observed only through its text decoding
(`Response::text`), which may fail with a transport error. -/
structure HttpResponse where
  textResult : Except (List Char) (List Char)

def aocUrl (year day : Nat) : List Char :=
  "https://adventofcode.com/".data ++ natChars year ++ "/day/".data ++ natChars day ++ "/input".data

def sessionCookie (session : List Char) : List Char := "session=".data ++ session

/-- Models `InputLoader::load_input`: build the URL and cookie header, issue
one blocking GET through the injected `client`, wrap a send failure or a
text-decoding failure in an `ErrorKind::Other` error with no retry.  The
second component is the trace of requests issued (always exactly one). -/
def load_input (client : HttpRequest → Except (List Char) HttpResponse)
    (session : List Char) (year day : Nat) :
    Except WFError (List Char) × List HttpRequest :=
  let req : HttpRequest := ⟨"GET".data, aocUrl year day, [("Cookie".data, sessionCookie session)]⟩
  (match client req with
   | Except.error e => Except.error ⟨EKind.other, e⟩
   | Except.ok resp =>
     match resp.textResult with
     | Except.error e => Except.error ⟨EKind.other, e⟩
     | Except.ok t => Except.ok t,
   [req])

/-- Modelled from the spec: the claimed semantics of placeholder
substitution, against which the implementation is compared.  In one
simultaneous left-to-right pass, every literal occurrence of the
delimiter-wrapped name of a bound variable is replaced by that variable's
value, and all text that is not such a bound placeholder is left untouched.
The `Nat` argument counts characters still to be skipped after a match. -/
def renderSpecGo (vars : List (List Char × List Char)) : Nat → List Char → List Char
  | Nat.succ _, [] => []
  | Nat.succ skip, _ :: rest => renderSpecGo vars skip rest
  | 0, [] => []
  | 0, c :: rest =>
    match vars.find? (fun nv => decide (placeholderOf nv.1 <+: c :: rest)) with
    | some nv => nv.2 ++ renderSpecGo vars (nv.1.length + 1) rest
    | none => c :: renderSpecGo vars 0 rest

/-- Modelled from the spec: simultaneous substitution of all bound
placeholders (see `renderSpecGo`). -/
def renderSpec (vars : List (List Char × List Char)) (template : List Char) : List Char :=
  renderSpecGo vars 0 template

/-- The five relative paths produced under the target directory. -/
def fiveRelPaths : List PathC :=
  [["input.txt"], [".gitignore"], ["Cargo.toml"], ["src", "main.rs"], ["src", "lib.rs"]]

/-- The result's error kind, if any. -/
def errKindOf : Except WFError Unit → Option EKind
  | Except.error e => some e.kind
  | Except.ok _ => none

/-- The five absolute paths written under the target directory. -/
def fiveAbsPaths (target : PathC) : List PathC :=
  fiveRelPaths.map (fun q => target ++ q)


-- Definitions supporting the order-independence analysis (C5): the three
-- placeholder strings, the literal segments of each template around its
-- placeholder occurrences, and decidable safety predicates about pattern
-- fragments at segment boundaries.

def phYEAR : List Char := placeholderOf "YEAR".data

def phDAY : List Char := placeholderOf "DAY".data

def phAOC : List Char := placeholderOf "AOC_PATH".data

def digitChars : List Char := "0123456789".data

/-- No proper non-empty prefix of `p` is a suffix of `a` (so no occurrence of
`p` can start inside `a` and continue past its right end). -/
def leftSafe (p a : List Char) : Bool :=
  (List.range p.length).all (fun k => decide (k = 0) || !(decide (p.take k <:+ a)))

/-- No proper non-empty suffix of `p` starts with the character `c` (so no
occurrence of `p` can straddle a boundary whose right side starts with `c`). -/
def rightHeadSafe (p : List Char) (c : Char) : Bool :=
  (List.range p.length).all (fun k => decide (k = 0) || !(decide ((p.drop k).head? = some c)))

def cargoSeg1 : List Char := "[package]\nname = \"mr-kaffee-".data

def cargoSeg2 : List Char := "-".data

def cargoSeg3 : List Char := "\"\nversion = \"0.1.0\"\nedition = \"2021\"\n\n# See more keys and their definitions at https://doc.rust-lang.org/cargo/reference/manifest.html\n\n[dependencies]\n\nmr-kaffee-aoc = \x7b path = \"".data

def cargoSeg4 : List Char := "\" \x7d\n".data

def mainSeg1 : List Char := "use mr_kaffee_aoc::\x7berr::PuzzleError, GenericPuzzle\x7d;\nuse mr_kaffee_".data

def mainSeg2 : List Char := "_".data

def mainSeg3 : List Char := "::*;\n\nfn main() -> Result<(), PuzzleError> \x7b\n    puzzle().solve_report_err()\n\x7d\n".data

def libSeg1 : List Char := "use mr_kaffee_aoc::\x7bPuzzle, Star\x7d;\nuse input::*;\n\n/// the puzzle\npub fn puzzle() -> Puzzle<PuzzleData, usize, usize, usize, usize> \x7b\n    Puzzle \x7b\n        year: ".data

def libSeg2 : List Char := ",\n        day: ".data

def libSeg3 : List Char := ",\n        input: include_str!(\"../input.txt\"),\n        star1: Some(Star \x7b\n            name: \"Star 1\",\n            f: &star_1,\n            exp: None,\n        \x7d),\n        star2: Some(Star \x7b\n            name: \"Star 2\",\n            f: &star_2,\n            exp: None,\n        \x7d),\n    \x7d\n\x7d\n\npub mod input \x7b\n    use core::fmt;\n    use std::\x7bconvert::Infallible, str::FromStr\x7d;\n\n    #[derive(Debug)]\n    pub struct PuzzleData \x7b\n        input: String,\n    \x7d\n\n    impl FromStr for PuzzleData \x7b\n        type Err = Infallible;\n\n        /// parse the puzzle input\n        ///\n        /// # Examples\n        /// \x60\x60\x60\n        /// # use mr_kaffee_".data

def libSeg4 : List Char := "_".data

def libSeg5 : List Char := "::input::*;\n        /// let data = \"Hello World\".parse::<PuzzleData>().unwrap();\n        /// assert_eq!(\"Hello World\", format!(\"\x7b\x7d\", data));\n        /// \x60\x60\x60    \n        fn from_str(s: &str) -> Result<Self, Self::Err> \x7b\n            Ok(PuzzleData \x7b input: s.into() \x7d)\n        \x7d\n    \x7d\n\n    impl fmt::Display for PuzzleData \x7b\n        fn fmt(&self, f: &mut fmt::Formatter<\x27_>) -> fmt::Result \x7b\n            self.input.fmt(f)\n        \x7d\n    \x7d\n\x7d\n\npub fn star_1(data: &PuzzleData) -> usize \x7b\n    println!(\"\x7b\x7d\", data);\n    0\n\x7d\n\npub fn star_2(data: &PuzzleData) -> usize \x7b\n    println!(\"\x7b:?\x7d\", data);\n    0\n\x7d\n\n#[cfg(test)]\nmod tests \x7b\n    use super::*;\n    use mr_kaffee_aoc::err::PuzzleError;\n\n    const CONTENT: &str = r#\"Hello World!\nFreedom\"#;\n\n    #[test]\n    pub fn test_puzzle_data_from_str() -> Result<(), PuzzleError> \x7b\n        let data = CONTENT.parse::<PuzzleData>()?;\n        assert_eq!(format!(\"\x7b\x7d\", data), CONTENT.to_string());\n        Ok(())\n    \x7d\n\x7d\n".data

def libSeg3c1 : List Char := ",\n        input: include_str!(\"../input.txt\"),\n        star1: Some(Star \x7b\n            name: \"Star 1\",\n            f: &star_1,\n            exp: None,\n        \x7d),\n        star2: Some(Star \x7b\n            name: \"Star 2\",\n    ".data

def libSeg3c2 : List Char := "        f: &star_2,\n            exp: None,\n        \x7d),\n    \x7d\n\x7d\n\npub mod input \x7b\n    use core::fmt;\n    use std::\x7bconvert::Infallible, str::FromStr\x7d;\n\n    #[derive(Debug)]\n    pub struct PuzzleData \x7b\n        input: String".data

def libSeg3c3 : List Char := ",\n    \x7d\n\n    impl FromStr for PuzzleData \x7b\n        type Err = Infallible;\n\n        /// parse the puzzle input\n        ///\n        /// # Examples\n        /// \x60\x60\x60\n        /// # use mr_kaffee_".data

def libSeg5c1 : List Char := "::input::*;\n        /// let data = \"Hello World\".parse::<PuzzleData>().unwrap();\n        /// assert_eq!(\"Hello World\", format!(\"\x7b\x7d\", data));\n        /// \x60\x60\x60    \n        fn from_str(s: &str) -> Result<Self, Self::Err> \x7b\n ".data

def libSeg5c2 : List Char := "           Ok(PuzzleData \x7b input: s.into() \x7d)\n        \x7d\n    \x7d\n\n    impl fmt::Display for PuzzleData \x7b\n        fn fmt(&self, f: &mut fmt::Formatter<\x27_>) -> fmt::Result \x7b\n            self.input.fmt(f)\n        \x7d\n    \x7d\n\x7d\n\npu".data

def libSeg5c3 : List Char := "b fn star_1(data: &PuzzleData) -> usize \x7b\n    println!(\"\x7b\x7d\", data);\n    0\n\x7d\n\npub fn star_2(data: &PuzzleData) -> usize \x7b\n    println!(\"\x7b:?\x7d\", data);\n    0\n\x7d\n\n#[cfg(test)]\nmod tests \x7b\n    use super::*;\n    use mr_kaffee_a".data

def libSeg5c4 : List Char := "oc::err::PuzzleError;\n\n    const CONTENT: &str = r#\"Hello World!\nFreedom\"#;\n\n    #[test]\n    pub fn test_puzzle_data_from_str() -> Result<(), PuzzleError> \x7b\n        let data = CONTENT.parse::<PuzzleData>()?;\n        asse".data

def libSeg5c5 : List Char := "rt_eq!(format!(\"\x7b\x7d\", data), CONTENT.to_string());\n        Ok(())\n    \x7d\n\x7d\n".data


-- Unfolding lemmas for the three control-flow paths of `write_files`.

theorem renderTemplate_nil (t : List Char) : renderTemplate t [] = t := rfl

theorem write_files_none (fs : FileSys) (target : PathC) (prov : Provider)
    (y d : Nat) (force : Bool) (sh : List (List Char × List Char) → List (List Char × List Char)) :
    write_files fs target none prov y d force sh =
      (Except.error ⟨EKind.other, "Can\x27t convert lib path to str".data⟩, fs) := rfl

theorem write_files_exists (fs : FileSys) (target : PathC) (libStr : List Char)
    (prov : Provider) (y d : Nat)
    (sh : List (List Char × List Char) → List (List Char × List Char))
    (h : pathExists fs target = true) :
    write_files fs target (some libStr) prov y d false sh =
      (Except.error ⟨EKind.alreadyExists, alreadyExistsMsg target⟩, fs) := by
  simp [write_files, h]

theorem write_files_provider_error (fs : FileSys) (target : PathC) (libStr : List Char)
    (prov : Provider) (y d : Nat) (force : Bool)
    (sh : List (List Char × List Char) → List (List Char × List Char)) (e : WFError)
    (hcond : (pathExists fs target && !force) = false)
    (hprov : prov y d = Except.error e) :
    write_files fs target (some libStr) prov y d force sh =
      (Except.error e, mkdirAll fs (target ++ ["src"])) := by
  simp [write_files, hcond, hprov]

theorem write_files_ok (fs : FileSys) (target : PathC) (libStr : List Char)
    (prov : Provider) (y d : Nat) (force : Bool)
    (sh : List (List Char × List Char) → List (List Char × List Char)) (s : List Char)
    (hcond : (pathExists fs target && !force) = false)
    (hprov : prov y d = Except.ok s) :
    write_files fs target (some libStr) prov y d force sh =
      (Except.ok (),
       ⟨allPrefixes (target ++ ["src"]) ++ fs.dirs,
        (target ++ ["src", "lib.rs"],
          renderTemplate LIB_RS (sh (canonicalVars libStr y d))) ::
        (target ++ ["src", "main.rs"],
          renderTemplate MAIN_RS (sh (canonicalVars libStr y d))) ::
        (target ++ ["Cargo.toml"],
          renderTemplate CARGO_TOML (sh (canonicalVars libStr y d))) ::
        (target ++ [".gitignore"],
          renderTemplate GITIGNORE (sh (canonicalVars libStr y d))) ::
        (target ++ ["input.txt"], s) ::
        fs.files⟩) := by
  simp [write_files, hcond, hprov, write_file, writeFS, mkdirAll, renderTemplate_nil,
    List.append_assoc]

theorem fileAt_skip {rest : List (PathC × List Char)} {q p : PathC} {c : List Char}
    (h : q ≠ p) : fileAt ((q, c) :: rest) p = fileAt rest p := by
  simp [fileAt, h]

-- Claim theorems.

/-- C9: `write_files` converts the library path to a UTF-8 string before the
target-existence precondition check: for every library path that cannot be
represented as UTF-8 it returns the path-encoding error (kind Other, message
"Can't convert lib path to str") and touches nothing, for every target
(including an existing one) and every force flag (including false); that
error kind is not AlreadyExists, so AlreadyExists is not the first-reported
error in that case. -/
theorem c9_libpath_error_first (fs : FileSys) (target : PathC) (prov : Provider)
    (y d : Nat) (force : Bool)
    (sh : List (List Char × List Char) → List (List Char × List Char)) :
    write_files fs target none prov y d force sh =
      (Except.error ⟨EKind.other, "Can\x27t convert lib path to str".data⟩, fs) ∧
    EKind.other ≠ EKind.alreadyExists :=
  ⟨rfl, by decide⟩

/-- C1 (counterexample): with a library path that is not valid UTF-8, a call
against an existing target with force=false does not return an AlreadyExists
error (it returns the Other-kinded path-encoding error first), refuting the
claim's universal quantification over every such call. -/
theorem c1_counterexample :
    pathExists ⟨[["out"]], []⟩ ["out"] = true ∧
    errKindOf (write_files ⟨[["out"]], []⟩ ["out"] none
        (fun _ _ => Except.ok "x".data) 2022 25 false id).1 ≠ some EKind.alreadyExists := by
  constructor
  · decide
  · decide

/-- C1 (amended): for every call whose library path converts to UTF-8, if the
target path exists and force is false, `write_files` returns the
AlreadyExists error whose message names the target path and instructs the
caller to use the force option, and the filesystem is returned unchanged. -/
theorem c1_already_exists_error (fs : FileSys) (target : PathC) (libStr : List Char)
    (prov : Provider) (y d : Nat)
    (sh : List (List Char × List Char) → List (List Char × List Char))
    (h : pathExists fs target = true) :
    write_files fs target (some libStr) prov y d false sh =
      (Except.error ⟨EKind.alreadyExists, alreadyExistsMsg target⟩, fs) ∧
    displayPath target <:+: alreadyExistsMsg target ∧
    "--force".data <:+: alreadyExistsMsg target := by
  refine ⟨write_files_exists fs target libStr prov y d sh h, ?_, ?_⟩
  · exact ⟨"The target directory \x27".data,
      "\x27 exists. Use the --force option to overwrite.".data, by simp [alreadyExistsMsg]⟩
  · have h1 : "--force".data <:+: "\x27 exists. Use the --force option to overwrite.".data := by
      decide
    exact h1.trans (List.suffix_append _ _).isInfix

theorem c1_witness :
    write_files ⟨[["out"]], []⟩ ["out"] (some "L".data) testProvider 2022 25 false id =
      (Except.error ⟨EKind.alreadyExists, alreadyExistsMsg ["out"]⟩, ⟨[["out"]], []⟩) ∧
    displayPath ["out"] <:+: alreadyExistsMsg ["out"] ∧
    "--force".data <:+: alreadyExistsMsg ["out"] :=
  c1_already_exists_error ⟨[["out"]], []⟩ ["out"] "L".data testProvider 2022 25 id (by decide)

/-- C2: for every string the Input Provider returns successfully, a
non-short-circuiting call of `write_files` writes that string byte-for-byte
to input.txt under the target directory with no placeholder substitution
applied (the input is rendered against an empty variable map, which is the
identity). -/
theorem c2_input_verbatim (fs : FileSys) (target : PathC) (libStr : List Char)
    (prov : Provider) (y d : Nat) (force : Bool)
    (sh : List (List Char × List Char) → List (List Char × List Char)) (s : List Char)
    (hprov : prov y d = Except.ok s)
    (hgo : pathExists fs target = false ∨ force = true) :
    (write_files fs target (some libStr) prov y d force sh).1 = Except.ok () ∧
    fileAt (write_files fs target (some libStr) prov y d force sh).2.files
      (target ++ ["input.txt"]) = some s := by
  have hc : (pathExists fs target && !force) = false := by
    rcases hgo with h | h <;> simp [h]
  rw [write_files_ok fs target libStr prov y d force sh s hc hprov]
  refine ⟨rfl, ?_⟩
  simp [fileAt, List.append_right_inj]

theorem c2_witness :
    (write_files ⟨[], []⟩ ["t"] (some "lib".data)
        (fun _ _ => Except.ok "line \x7bYEAR\x7d more".data) 2022 25 false id).1 =
      Except.ok () ∧
    fileAt (write_files ⟨[], []⟩ ["t"] (some "lib".data)
        (fun _ _ => Except.ok "line \x7bYEAR\x7d more".data) 2022 25 false id).2.files
      (["t"] ++ ["input.txt"]) = some "line \x7bYEAR\x7d more".data :=
  c2_input_verbatim ⟨[], []⟩ ["t"] "lib".data _ 2022 25 false id
    "line \x7bYEAR\x7d more".data rfl (Or.inl (by decide))

/-- C6: if the Input Provider fails, `write_files` propagates that error as
its own result; no file has been written (the file table is exactly the one
before the call), while the directories created in the preceding step remain
(the dirs list has gained exactly the target directory, its `src`
subdirectory and their ancestors) — no rollback. -/
theorem c6_provider_error_propagates (fs : FileSys) (target : PathC) (libStr : List Char)
    (prov : Provider) (y d : Nat) (force : Bool)
    (sh : List (List Char × List Char) → List (List Char × List Char)) (e : WFError)
    (hgo : pathExists fs target = false ∨ force = true)
    (hprov : prov y d = Except.error e) :
    write_files fs target (some libStr) prov y d force sh =
      (Except.error e, ⟨allPrefixes (target ++ ["src"]) ++ fs.dirs, fs.files⟩) := by
  have hc : (pathExists fs target && !force) = false := by
    rcases hgo with h | h <;> simp [h]
  exact write_files_provider_error fs target libStr prov y d force sh e hc hprov

theorem c6_witness :
    write_files ⟨[], []⟩ ["t"] (some "lib".data)
        (fun _ _ => Except.error ⟨EKind.other, "boom".data⟩) 2022 25 false id =
      (Except.error ⟨EKind.other, "boom".data⟩,
       ⟨allPrefixes (["t"] ++ ["src"]) ++ FileSys.dirs ⟨[], []⟩, FileSys.files ⟨[], []⟩⟩) :=
  c6_provider_error_propagates ⟨[], []⟩ ["t"] "lib".data _ 2022 25 false id
    ⟨EKind.other, "boom".data⟩ (Or.inl (by decide)) rfl

/-- C7: for every target path that already exists, invoking `write_files`
with force=true skips the existence error, succeeds (given a successful
provider), and overwrites all five files with freshly rendered contents. -/
theorem c7_force_overwrites (fs : FileSys) (target : PathC) (libStr : List Char)
    (prov : Provider) (y d : Nat)
    (sh : List (List Char × List Char) → List (List Char × List Char)) (s : List Char)
    (_hex : pathExists fs target = true)
    (hprov : prov y d = Except.ok s) :
    (write_files fs target (some libStr) prov y d true sh).1 = Except.ok () ∧
    fileAt (write_files fs target (some libStr) prov y d true sh).2.files
      (target ++ ["input.txt"]) = some s ∧
    fileAt (write_files fs target (some libStr) prov y d true sh).2.files
      (target ++ [".gitignore"]) =
      some (renderTemplate GITIGNORE (sh (canonicalVars libStr y d))) ∧
    fileAt (write_files fs target (some libStr) prov y d true sh).2.files
      (target ++ ["Cargo.toml"]) =
      some (renderTemplate CARGO_TOML (sh (canonicalVars libStr y d))) ∧
    fileAt (write_files fs target (some libStr) prov y d true sh).2.files
      (target ++ ["src", "main.rs"]) =
      some (renderTemplate MAIN_RS (sh (canonicalVars libStr y d))) ∧
    fileAt (write_files fs target (some libStr) prov y d true sh).2.files
      (target ++ ["src", "lib.rs"]) =
      some (renderTemplate LIB_RS (sh (canonicalVars libStr y d))) := by
  have hc : (pathExists fs target && !true) = false := by simp
  rw [write_files_ok fs target libStr prov y d true sh s hc hprov]
  refine ⟨rfl, ?_, ?_, ?_, ?_, ?_⟩ <;> simp [fileAt, List.append_right_inj]

theorem c7_witness :
    (write_files ⟨[["out"]], [(["out"], "old".data)]⟩ ["out"] (some "../../aoc".data)
        testProvider 2022 25 true id).1 = Except.ok () ∧
    fileAt (write_files ⟨[["out"]], [(["out"], "old".data)]⟩ ["out"] (some "../../aoc".data)
        testProvider 2022 25 true id).2.files
      (["out"] ++ ["input.txt"]) = some "Test input for 2022/25\n".data ∧
    fileAt (write_files ⟨[["out"]], [(["out"], "old".data)]⟩ ["out"] (some "../../aoc".data)
        testProvider 2022 25 true id).2.files
      (["out"] ++ [".gitignore"]) =
      some (renderTemplate GITIGNORE (id (canonicalVars "../../aoc".data 2022 25))) ∧
    fileAt (write_files ⟨[["out"]], [(["out"], "old".data)]⟩ ["out"] (some "../../aoc".data)
        testProvider 2022 25 true id).2.files
      (["out"] ++ ["Cargo.toml"]) =
      some (renderTemplate CARGO_TOML (id (canonicalVars "../../aoc".data 2022 25))) ∧
    fileAt (write_files ⟨[["out"]], [(["out"], "old".data)]⟩ ["out"] (some "../../aoc".data)
        testProvider 2022 25 true id).2.files
      (["out"] ++ ["src", "main.rs"]) =
      some (renderTemplate MAIN_RS (id (canonicalVars "../../aoc".data 2022 25))) ∧
    fileAt (write_files ⟨[["out"]], [(["out"], "old".data)]⟩ ["out"] (some "../../aoc".data)
        testProvider 2022 25 true id).2.files
      (["out"] ++ ["src", "lib.rs"]) =
      some (renderTemplate LIB_RS (id (canonicalVars "../../aoc".data 2022 25))) :=
  c7_force_overwrites ⟨[["out"]], [(["out"], "old".data)]⟩ ["out"] "../../aoc".data
    testProvider 2022 25 id "Test input for 2022/25\n".data (by decide) rfl

/-- C10: `write_files` never deletes or truncates anything it does not
write: under force=true, every path other than the five written paths has
exactly the content it had before the call (whatever the provider does). -/
theorem c10_no_deletion (fs : FileSys) (target : PathC) (libStr : List Char)
    (prov : Provider) (y d : Nat)
    (sh : List (List Char × List Char) → List (List Char × List Char)) (p : PathC)
    (hp : p ∉ fiveAbsPaths target) :
    fileAt (write_files fs target (some libStr) prov y d true sh).2.files p =
      fileAt fs.files p := by
  have hc : (pathExists fs target && !true) = false := by simp
  simp only [fiveAbsPaths, fiveRelPaths, List.map, List.mem_cons, List.not_mem_nil,
    or_false, not_or] at hp
  obtain ⟨h1, h2, h3, h4, h5⟩ := hp
  cases hprov : prov y d with
  | error e =>
    rw [write_files_provider_error fs target libStr prov y d true sh e hc hprov]
    rfl
  | ok s =>
    rw [write_files_ok fs target libStr prov y d true sh s hc hprov]
    rw [fileAt_skip (Ne.symm h5), fileAt_skip (Ne.symm h4), fileAt_skip (Ne.symm h3),
      fileAt_skip (Ne.symm h2), fileAt_skip (Ne.symm h1)]

theorem c10_witness :
    (["keep.txt"] ∉ fiveAbsPaths ["t"]) ∧
    fileAt (write_files ⟨[["t"]], [(["keep.txt"], "data".data)]⟩ ["t"] (some "lib".data)
        testProvider 2022 25 true id).2.files ["keep.txt"] =
      fileAt (FileSys.files ⟨[["t"]], [(["keep.txt"], "data".data)]⟩) ["keep.txt"] :=
  ⟨by decide,
   c10_no_deletion ⟨[["t"]], [(["keep.txt"], "data".data)]⟩ ["t"] "lib".data
     testProvider 2022 25 id ["keep.txt"] (by decide)⟩

/-- C8: the network provider issues exactly one GET request, to
`https://adventofcode.com/\x7byear\x7d/day/\x7bday\x7d/input` with year and day in
decimal, carrying the header `Cookie: session=\x7btoken\x7d`; a send failure or a
text-decoding failure is returned as a single error wrapping the underlying
transport error, with no retry (the request trace has length one in every
outcome). -/
theorem c8_single_get (client : HttpRequest → Except (List Char) HttpResponse)
    (session : List Char) (y d : Nat) :
    (load_input client session y d).2 =
      [⟨"GET".data, aocUrl y d, [("Cookie".data, sessionCookie session)]⟩] ∧
    (∀ e, client ⟨"GET".data, aocUrl y d, [("Cookie".data, sessionCookie session)]⟩ =
        Except.error e →
      (load_input client session y d).1 = Except.error ⟨EKind.other, e⟩) ∧
    (∀ r e, client ⟨"GET".data, aocUrl y d, [("Cookie".data, sessionCookie session)]⟩ =
        Except.ok r → r.textResult = Except.error e →
      (load_input client session y d).1 = Except.error ⟨EKind.other, e⟩) ∧
    (∀ r t, client ⟨"GET".data, aocUrl y d, [("Cookie".data, sessionCookie session)]⟩ =
        Except.ok r → r.textResult = Except.ok t →
      (load_input client session y d).1 = Except.ok t) := by
  refine ⟨rfl, ?_, ?_, ?_⟩
  · intro e he
    simp [load_input, he]
  · intro r e hr ht
    simp [load_input, hr, ht]
  · intro r t hr ht
    simp [load_input, hr, ht]

theorem c8_witness :
    aocUrl 2022 25 = "https://adventofcode.com/2022/day/25/input".data ∧
    sessionCookie "tok".data = "session=tok".data ∧
    (load_input (fun _ => Except.error "down".data) "tok".data 2022 25).2 =
      [⟨"GET".data, aocUrl 2022 25, [("Cookie".data, sessionCookie "tok".data)]⟩] ∧
    (load_input (fun _ => Except.error "down".data) "tok".data 2022 25).1 =
      Except.error ⟨EKind.other, "down".data⟩ :=
  ⟨by decide, by decide,
   (c8_single_get (fun _ => Except.error "down".data) "tok".data 2022 25).1,
   (c8_single_get (fun _ => Except.error "down".data) "tok".data 2022 25).2.1
     "down".data rfl⟩

-- Non-emptiness of rendered templates: replacing placeholders (which always
-- start with a brace) preserves a non-brace head character.

theorem strReplace_cons_of_head_ne (n rep : List Char) {c : Char} (rest : List Char)
    (hc : c ≠ '{') :
    strReplace (c :: rest) (placeholderOf n) rep =
      c :: replaceGo (placeholderOf n) rep 0 rest := by
  have hne : placeholderOf n ≠ [] := by simp [placeholderOf]
  have hnp : ¬ (placeholderOf n <+: c :: rest) := by
    intro h
    rw [placeholderOf] at h
    exact hc (List.cons_prefix_cons.mp h).1.symm
  simp [strReplace, hne, replaceGo, hnp]

theorem renderTemplate_head_ne (vars : List (List Char × List Char)) {c : Char}
    (hc : c ≠ '{') :
    ∀ rest : List Char, ∃ rest', renderTemplate (c :: rest) vars = c :: rest' := by
  induction vars with
  | nil => exact fun rest => ⟨rest, rfl⟩
  | cons nv vs ih =>
    intro rest
    have hstep := strReplace_cons_of_head_ne nv.1 nv.2 rest hc
    have : renderTemplate (c :: rest) (nv :: vs) =
        renderTemplate (strReplace (c :: rest) (placeholderOf nv.1) nv.2) vs := rfl
    rw [this, hstep]
    exact ih _

theorem renderTemplate_cons_ne_nil (vars : List (List Char × List Char)) {c : Char}
    (hc : c ≠ '{') (rest : List Char) : renderTemplate (c :: rest) vars ≠ [] := by
  obtain ⟨rest', h⟩ := renderTemplate_head_ne vars hc rest
  simp [h]

/-- C3 (counterexample): an always-succeeding deterministic provider may
return the empty string, in which case the call still succeeds but
`input.txt` is written with empty contents, refuting "each with non-empty
contents". -/
theorem c3_counterexample :
    (write_files ⟨[], []⟩ ["t"] (some "lib".data) (fun _ _ => Except.ok []) 2022 25
        false id).1 = Except.ok () ∧
    fileAt (write_files ⟨[], []⟩ ["t"] (some "lib".data) (fun _ _ => Except.ok []) 2022 25
        false id).2.files (["t"] ++ ["input.txt"]) = some ([] : List Char) := by
  rw [write_files_ok ⟨[], []⟩ ["t"] "lib".data _ 2022 25 false id [] (by decide) rfl]
  refine ⟨rfl, ?_⟩
  simp [fileAt]

/-- C3 (amended): for all (year, day), invoking `write_files` on a
non-existing target path (with a UTF-8 library path) with a provider that
succeeds with non-empty text — such as the deterministic test provider —
succeeds and produces exactly five files under the target, at the relative
paths .gitignore, Cargo.toml, input.txt, src/main.rs and src/lib.rs, each
with non-empty contents. -/
theorem c3_five_files (fs : FileSys) (target : PathC) (libStr : List Char)
    (prov : Provider) (y d : Nat)
    (sh : List (List Char × List Char) → List (List Char × List Char)) (s : List Char)
    (hfresh : pathExists fs target = false)
    (hnone : ∀ q : PathC, fileAt fs.files (target ++ q) = none)
    (hprov : prov y d = Except.ok s) (hne : s ≠ []) :
    (write_files fs target (some libStr) prov y d false sh).1 = Except.ok () ∧
    (∀ q : PathC,
      (fileAt (write_files fs target (some libStr) prov y d false sh).2.files
        (target ++ q)).isSome = true ↔ q ∈ fiveRelPaths) ∧
    (∀ q : PathC, ∀ c : List Char,
      fileAt (write_files fs target (some libStr) prov y d false sh).2.files
        (target ++ q) = some c → c ≠ []) := by
  have hc : (pathExists fs target && !false) = false := by simp [hfresh]
  rw [write_files_ok fs target libStr prov y d false sh s hc hprov]
  refine ⟨rfl, ?_, ?_⟩
  · intro q
    simp only [fileAt, List.append_right_inj, hnone q]
    split_ifs with h1 h2 h3 h4 h5 <;> simp_all [fiveRelPaths] <;>
      exact ⟨fun h => h5 h.symm, fun h => h4 h.symm, fun h => h3 h.symm,
        fun h => h2 h.symm, fun h => h1 h.symm⟩
  · intro q c
    simp only [fileAt, List.append_right_inj, hnone q]
    split_ifs with h1 h2 h3 h4 h5 <;> intro hc2
    · cases hc2
      exact renderTemplate_cons_ne_nil _ (by decide) _
    · cases hc2
      exact renderTemplate_cons_ne_nil _ (by decide) _
    · cases hc2
      exact renderTemplate_cons_ne_nil _ (by decide) _
    · cases hc2
      exact renderTemplate_cons_ne_nil _ (by decide) _
    · cases hc2
      exact hne
    · cases hc2

theorem c3_witness :
    (write_files ⟨[], []⟩ ["t"] (some "lib".data) testProvider 2022 25 false id).1 =
      Except.ok () ∧
    (∀ q : PathC,
      (fileAt (write_files ⟨[], []⟩ ["t"] (some "lib".data) testProvider 2022 25
        false id).2.files (["t"] ++ q)).isSome = true ↔ q ∈ fiveRelPaths) ∧
    (∀ q : PathC, ∀ c : List Char,
      fileAt (write_files ⟨[], []⟩ ["t"] (some "lib".data) testProvider 2022 25
        false id).2.files (["t"] ++ q) = some c → c ≠ []) :=
  c3_five_files ⟨[], []⟩ ["t"] "lib".data testProvider 2022 25 id
    "Test input for 2022/25\n".data (by decide) (fun _ => rfl) rfl (by decide)

-- Core lemmas about the replace scanner.

theorem replaceGo_noOccur {p v : List Char} :
    ∀ s : List Char, ¬ p <:+: s → replaceGo p v 0 s = s
  | [], _ => rfl
  | c :: rest, h => by
    have hp : ¬ p <+: c :: rest := fun hh => h hh.isInfix
    have hr : ¬ p <:+: rest := fun hh => h (List.infix_cons hh)
    simp [replaceGo, hp, replaceGo_noOccur rest hr]

theorem strReplace_noOccur {p v : List Char} (s : List Char) (hp : p ≠ [])
    (h : ¬ p <:+: s) : strReplace s p v = s := by
  simp [strReplace, hp, replaceGo_noOccur s h]

theorem renderSpecGo_singleton (n v : List Char) :
    ∀ s k, renderSpecGo [(n, v)] k s = replaceGo (placeholderOf n) v k s := by
  intro s
  induction s with
  | nil => intro k; cases k <;> rfl
  | cons c rest ih =>
    intro k
    cases k with
    | succ k =>
      show renderSpecGo [(n, v)] (k + 1) (c :: rest) =
        replaceGo (placeholderOf n) v (k + 1) (c :: rest)
      simp only [renderSpecGo, replaceGo]
      exact ih k
    | zero =>
      by_cases h : placeholderOf n <+: c :: rest
      · have hlen : (placeholderOf n).length - 1 = n.length + 1 := by
          simp [placeholderOf]
        simp [renderSpecGo, replaceGo, List.find?, h, hlen, ih]
      · simp [renderSpecGo, replaceGo, List.find?, h, ih 0]

theorem strReplace_eq_renderSpec_singleton (n v s : List Char) :
    strReplace s (placeholderOf n) v = renderSpec [(n, v)] s := by
  have hp : placeholderOf n ≠ [] := by simp [placeholderOf]
  simp [strReplace, hp, renderSpec, renderSpecGo_singleton]

/-- C4 (counterexample): with bindings A→"\x7bB\x7d", B→"z", the template "x\x7bA\x7dy"
renders to "xzy" (the value substituted for A is itself rewritten by the
later binding), while the claimed simultaneous reading — every bound
placeholder replaced by its value's text, all other text untouched — yields
"x\x7bB\x7dy"; the routine disagrees with the claim at this input. -/
theorem c4_counterexample :
    renderTemplate "x\x7bA\x7dy".data [("A".data, "\x7bB\x7d".data), ("B".data, "z".data)] =
      "xzy".data ∧
    renderSpec [("A".data, "\x7bB\x7d".data), ("B".data, "z".data)] "x\x7bA\x7dy".data =
      "x\x7bB\x7dy".data ∧
    renderTemplate "x\x7bA\x7dy".data [("A".data, "\x7bB\x7d".data), ("B".data, "z".data)] ≠
      renderSpec [("A".data, "\x7bB\x7d".data), ("B".data, "z".data)] "x\x7bA\x7dy".data := by
  refine ⟨by decide, by decide, by decide⟩

/-- C4 (amended): the substitution routine is the sequential composition of
single-binding substitutions: for each bound name in turn it replaces every
literal occurrence of that delimiter-wrapped name by the value's text and
leaves all other text of its input untouched (first conjunct, via the
spec-level single-binding renderer); it never errors, and unmatched
placeholder-like syntax is preserved: a template containing no bound
placeholder at all is returned verbatim (second conjunct).  Because the
steps are sequential, text produced by one substitution may be rewritten by
a later binding, so the simultaneous reading of the original claim fails
(see the counterexample). -/
theorem c4_sequential_substitution :
    (∀ t : List Char, ∀ vars : List (List Char × List Char),
      renderTemplate t vars = vars.foldl (fun s nv => renderSpec [nv] s) t) ∧
    (∀ t : List Char, ∀ vars : List (List Char × List Char),
      (∀ nv ∈ vars, ¬ placeholderOf nv.1 <:+: t) → renderTemplate t vars = t) := by
  constructor
  · intro t vars
    induction vars generalizing t with
    | nil => rfl
    | cons nv vs ih =>
      show renderTemplate (strReplace t (placeholderOf nv.1) nv.2) vs = _
      rw [ih, strReplace_eq_renderSpec_singleton]
      rfl
  · intro t vars
    induction vars generalizing t with
    | nil => intro _; rfl
    | cons nv vs ih =>
      intro h
      have h1 : ¬ placeholderOf nv.1 <:+: t := h nv (List.mem_cons_self nv vs)
      have hp : placeholderOf nv.1 ≠ [] := by simp [placeholderOf]
      show renderTemplate (strReplace t (placeholderOf nv.1) nv.2) vs = t
      rw [strReplace_noOccur t hp h1]
      exact ih t (fun x hx => h x (List.mem_cons_of_mem nv hx))

theorem c4_witness :
    renderTemplate "ab\x7bPuzzle, Star\x7d \x7b\x7d cd".data
        (canonicalVars "lib".data 2022 25) =
      "ab\x7bPuzzle, Star\x7d \x7b\x7d cd".data ∧
    renderTemplate "x\x7bDAY\x7dy".data (canonicalVars "lib".data 2022 25) =
      (canonicalVars "lib".data 2022 25).foldl (fun s nv => renderSpec [nv] s)
        "x\x7bDAY\x7dy".data :=
  ⟨c4_sequential_substitution.2 _ _ (by decide),
   c4_sequential_substitution.1 "x\x7bDAY\x7dy".data (canonicalVars "lib".data 2022 25)⟩

-- Toolkit for the order-independence analysis: boundary-safety bridges,
-- an occurrence decomposition for infixes of appended lists, and the
-- behaviour of the replace scanner on decomposed strings.

theorem of_leftSafe {p a : List Char} (h : leftSafe p a = true) :
    ∀ k, 0 < k → k < p.length → ¬ p.take k <:+ a := by
  intro k hk hlt hsuf
  have hmem : k ∈ List.range p.length := List.mem_range.mpr hlt
  have := (List.all_eq_true.mp h) k hmem
  rcases Bool.or_eq_true_iff.mp this with h0 | hns
  · exact absurd (of_decide_eq_true h0) (Nat.pos_iff_ne_zero.mp hk)
  · rw [Bool.not_eq_true'] at hns
    exact absurd hsuf (of_decide_eq_false hns)

theorem of_rightHeadSafe {p : List Char} {c : Char} (h : rightHeadSafe p c = true) :
    ∀ k, 0 < k → k < p.length → ¬ (p.drop k).head? = some c := by
  intro k hk hlt hhead
  have hmem : k ∈ List.range p.length := List.mem_range.mpr hlt
  have := (List.all_eq_true.mp h) k hmem
  rcases Bool.or_eq_true_iff.mp this with h0 | hns
  · exact absurd (of_decide_eq_true h0) (Nat.pos_iff_ne_zero.mp hk)
  · rw [Bool.not_eq_true'] at hns
    exact absurd hhead (of_decide_eq_false hns)

theorem prefix_head_eq {x r : List Char} (h : x <+: r) (hx : x ≠ []) :
    x.head? = r.head? := by
  obtain ⟨t, ht⟩ := h
  cases x with
  | nil => exact absurd rfl hx
  | cons c xs => rw [← ht]; rfl

/-- Crossing refuter via the left side: `a` ends in no proper prefix of `p`. -/
theorem crossRefuteLeft {p a r : List Char} (h : leftSafe p a = true) :
    ∀ k, 0 < k → k < p.length → ¬ (p.take k <:+ a ∧ p.drop k <+: r) :=
  fun k hk hlt hc => of_leftSafe h k hk hlt hc.1

/-- Crossing refuter via the left side when `a` consists of decimal digits
and `p` starts with a brace. -/
theorem crossRefuteDigits {p a r : List Char} (hp : p.head? = some '\x7b')
    (hdig : ∀ c ∈ a, c ∈ digitChars) :
    ∀ k, 0 < k → k < p.length → ¬ (p.take k <:+ a ∧ p.drop k <+: r) := by
  intro k hk _ hc
  obtain ⟨q, rfl⟩ : ∃ q, p = '\x7b' :: q := by
    cases p with
    | nil => simp at hp
    | cons c q =>
      simp only [List.head?, Option.some.injEq] at hp
      exact ⟨q, by rw [hp]⟩
  have hbr : '\x7b' ∈ ('\x7b' :: q).take k := by
    cases k with
    | zero => exact absurd rfl (Nat.pos_iff_ne_zero.mp hk)
    | succ k => simp [List.take_succ_cons]
  have hm : '\x7b' ∈ a := hc.1.subset hbr
  exact absurd (hdig _ hm) (by decide)

/-- Crossing refuter via the right side: `r` starts with a character that no
proper suffix of `p` starts with. -/
theorem crossRefuteRightHead {p r : List Char} {c : Char} (hhead : r.head? = some c)
    (h : rightHeadSafe p c = true) :
    ∀ k, 0 < k → k < p.length → ¬ (p.take k <:+ a ∧ p.drop k <+: r) := by
  intro k hk hlt hc
  have hne : p.drop k ≠ [] := by
    have : (p.drop k).length = p.length - k := List.length_drop ..
    intro hnil
    rw [hnil] at this
    simp at this
    omega
  have := prefix_head_eq hc.2 hne
  exact of_rightHeadSafe h k hk hlt (this.trans hhead)

/-- Decomposition of an occurrence inside an appended list: it lies in the
left part, in the right part, or straddles the boundary. -/
theorem infix_append_cases {p : List Char} :
    ∀ {a b : List Char}, p <:+: a ++ b →
      p <:+: a ∨ p <:+: b ∨
        ∃ k, 0 < k ∧ k < p.length ∧ p.take k <:+ a ∧ p.drop k <+: b := by
  intro a
  induction a with
  | nil => intro b h; exact Or.inr (Or.inl (by simpa using h))
  | cons c a' ih =>
    intro b h
    rw [List.cons_append] at h
    rcases List.infix_cons_iff.mp h with hpref | hrest
    · by_cases hlen : p.length ≤ (c :: a').length
      · left
        have : p <+: (c :: a') ++ b := by simpa using hpref
        exact ((List.isPrefix_append_of_length hlen).mp this).isInfix
      · have hlt : (c :: a').length < p.length := Nat.lt_of_not_le hlen
        have hpre2 : p <+: (c :: a') ++ b := by simpa using hpref
        have htk : p.take (c :: a').length = c :: a' := by
          have h3 := hpre2.take (c :: a').length
          rw [List.take_left] at h3
          refine h3.eq_of_length ?_
          rw [List.length_take]
          exact Nat.min_eq_left (Nat.le_of_lt hlt)
        have hdr : p.drop (c :: a').length <+: b := by
          obtain ⟨t, ht⟩ := hpre2
          refine ⟨t, ?_⟩
          have hdt := congrArg (List.drop (c :: a').length) ht
          rw [List.drop_append_eq_append_drop, List.drop_left] at hdt
          have h0 : (c :: a').length - p.length = 0 := Nat.sub_eq_zero_of_le (Nat.le_of_lt hlt)
          rw [h0, List.drop_zero] at hdt
          exact hdt
        refine Or.inr (Or.inr ⟨(c :: a').length, by simp, hlt, ?_, hdr⟩)
        rw [htk]
    · rcases ih hrest with h1 | h2 | ⟨k, hk, hlt, hsuf, hpre⟩
      · exact Or.inl (List.infix_cons h1)
      · exact Or.inr (Or.inl h2)
      · exact Or.inr (Or.inr ⟨k, hk, hlt, hsuf.trans (List.suffix_cons c a'), hpre⟩)

theorem not_infix_append {p a b : List Char} (ha : ¬ p <:+: a) (hb : ¬ p <:+: b)
    (hcross : ∀ k, 0 < k → k < p.length → ¬ (p.take k <:+ a ∧ p.drop k <+: b)) :
    ¬ p <:+: a ++ b := by
  intro h
  rcases infix_append_cases h with h1 | h2 | ⟨k, hk, hlt, hs, hp⟩
  · exact ha h1
  · exact hb h2
  · exact hcross k hk hlt ⟨hs, hp⟩

theorem replaceGo_skip {p v : List Char} :
    ∀ (s : List Char) (k : Nat), replaceGo p v k s = replaceGo p v 0 (s.drop k)
  | [], k => by cases k <;> rfl
  | c :: rest, 0 => rfl
  | c :: rest, k + 1 => by
    show replaceGo p v (k + 1) (c :: rest) = replaceGo p v 0 (rest.drop k)
    rw [← replaceGo_skip rest k]
    rfl

theorem replaceGo_consume {p v r : List Char} (hp : p ≠ []) :
    replaceGo p v 0 (p ++ r) = v ++ replaceGo p v 0 r := by
  obtain ⟨c, q, rfl⟩ := List.exists_cons_of_ne_nil hp
  have hpre : (c :: q) <+: c :: (q ++ r) := by
    simpa using List.prefix_append (c :: q) r
  show replaceGo (c :: q) v 0 (c :: (q ++ r)) = _
  rw [replaceGo, if_pos hpre, replaceGo_skip]
  congr 1
  have : (c :: q).length - 1 = q.length := by simp
  rw [this, List.drop_left]

theorem replaceGo_append_split {p v : List Char} :
    ∀ (a r : List Char), ¬ p <:+: a →
      (∀ k, 0 < k → k < p.length → ¬ (p.take k <:+ a ∧ p.drop k <+: r)) →
      replaceGo p v 0 (a ++ r) = a ++ replaceGo p v 0 r
  | [], r, _, _ => by simp
  | c :: a', r, h1, h2 => by
    have hnp : ¬ p <+: c :: (a' ++ r) := by
      intro hp
      by_cases hlen : p.length ≤ (c :: a').length
      · refine h1 ?_
        have : p <+: (c :: a') ++ r := by simpa using hp
        exact ((List.isPrefix_append_of_length hlen).mp this).isInfix
      · have hlt : (c :: a').length < p.length := Nat.lt_of_not_le hlen
        have hpre2 : p <+: (c :: a') ++ r := by simpa using hp
        have htk : p.take (c :: a').length = c :: a' := by
          have h3 := hpre2.take (c :: a').length
          rw [List.take_left] at h3
          refine h3.eq_of_length ?_
          rw [List.length_take]
          exact Nat.min_eq_left (Nat.le_of_lt hlt)
        have hdr : p.drop (c :: a').length <+: r := by
          obtain ⟨t, ht⟩ := hpre2
          refine ⟨t, ?_⟩
          have hdt := congrArg (List.drop (c :: a').length) ht
          rw [List.drop_append_eq_append_drop, List.drop_left] at hdt
          have h0 : (c :: a').length - p.length = 0 := Nat.sub_eq_zero_of_le (Nat.le_of_lt hlt)
          rw [h0, List.drop_zero] at hdt
          exact hdt
        refine h2 (c :: a').length (by simp) hlt ⟨?_, hdr⟩
        rw [htk]
    show replaceGo p v 0 (c :: (a' ++ r)) = _
    rw [replaceGo, if_neg hnp]
    have h1' : ¬ p <:+: a' := fun hh => h1 (List.infix_cons hh)
    have h2' : ∀ k, 0 < k → k < p.length → ¬ (p.take k <:+ a' ∧ p.drop k <+: r) :=
      fun k hk hlt hc => h2 k hk hlt ⟨hc.1.trans (List.suffix_cons c a'), hc.2⟩
    rw [replaceGo_append_split a' r h1' h2']
    rfl

theorem digitChar_mem {m : Nat} (h : m < 10) : digitChar m ∈ digitChars := by
  interval_cases m <;> decide

theorem natCharsGo_mem : ∀ (fuel n : Nat) (acc : List Char),
    (∀ c ∈ acc, c ∈ digitChars) → ∀ c ∈ natCharsGo fuel n acc, c ∈ digitChars
  | 0, _, _, hacc => hacc
  | fuel + 1, n, acc, hacc => by
    show ∀ c ∈ (if n < 10 then digitChar n :: acc
      else natCharsGo fuel (n / 10) (digitChar (n % 10) :: acc)), c ∈ digitChars
    split_ifs with h
    · intro c hc
      rcases List.mem_cons.mp hc with rfl | hc
      · exact digitChar_mem h
      · exact hacc _ hc
    · refine natCharsGo_mem fuel (n / 10) _ ?_
      intro c hc
      rcases List.mem_cons.mp hc with rfl | hc
      · exact digitChar_mem (Nat.mod_lt _ (by omega))
      · exact hacc _ hc

theorem natChars_mem_digits (n : Nat) : ∀ c ∈ natChars n, c ∈ digitChars :=
  natCharsGo_mem (n + 1) n [] (by simp)

theorem ph_not_infix_digits {q v : List Char} (hdig : ∀ c ∈ v, c ∈ digitChars) :
    ¬ ('{' :: q) <:+: v := by
  intro h
  have hm : '{' ∈ v := h.subset (List.mem_cons_self _ _)
  exact absurd (hdig _ hm) (by decide)

theorem phYEAR_not_in_natChars (n : Nat) : ¬ phYEAR <:+: natChars n :=
  ph_not_infix_digits (natChars_mem_digits n)

theorem phDAY_not_in_natChars (n : Nat) : ¬ phDAY <:+: natChars n :=
  ph_not_infix_digits (natChars_mem_digits n)

theorem phAOC_not_in_natChars (n : Nat) : ¬ phAOC <:+: natChars n :=
  ph_not_infix_digits (natChars_mem_digits n)

theorem perm_two {α : Type} {x : List α} {a b : α} (h : x.Perm [a, b]) :
    x = [a, b] ∨ x = [b, a] := by
  have h2 : x.length = 2 := by simpa using h.length_eq
  match x, h2 with
  | [u, v], _ =>
    have hu : u ∈ [a, b] := h.mem_iff.mp (by simp)
    rcases List.mem_pair.mp hu with rfl | rfl
    · left
      have hv : [v].Perm [b] := h.cons_inv
      rw [List.perm_singleton.mp hv]
    · right
      have hswap : List.Perm [a, u] [u, a] := List.Perm.swap u a []
      have hv : [v].Perm [a] := (h.trans hswap).cons_inv
      rw [List.perm_singleton.mp hv]

theorem perm_three {α : Type} {x : List α} {a b c : α} (h : x.Perm [a, b, c]) :
    x = [a, b, c] ∨ x = [a, c, b] ∨ x = [b, a, c] ∨ x = [b, c, a] ∨
      x = [c, a, b] ∨ x = [c, b, a] := by
  have h3 : x.length = 3 := by simpa using h.length_eq
  match x, h3 with
  | [u, v, w], _ =>
    have hu : u ∈ [a, b, c] := h.mem_iff.mp (by simp)
    rcases List.mem_cons.mp hu with rfl | hu2
    · have hrest : [v, w].Perm [b, c] := h.cons_inv
      rcases perm_two hrest with h4 | h4 <;> rw [h4] <;> simp
    rcases List.mem_pair.mp hu2 with rfl | rfl
    · have hswap : List.Perm [a, u, c] (u :: [a, c]) := List.Perm.swap u a [c]
      have hrest : [v, w].Perm [a, c] := (h.trans hswap).cons_inv
      rcases perm_two hrest with h4 | h4 <;> rw [h4] <;> simp
    · have hswap1 : List.Perm [a, b, u] (a :: [u, b]) := List.Perm.cons a (List.Perm.swap u b [])
      have hswap2 : List.Perm (a :: [u, b]) (u :: [a, b]) := List.Perm.swap u a [b]
      have hrest : [v, w].Perm [a, b] := (h.trans (hswap1.trans hswap2)).cons_inv
      rcases perm_two hrest with h4 | h4 <;> rw [h4] <;> simp

theorem strReplace_ph (n v s : List Char) :
    strReplace s (placeholderOf n) v = replaceGo (placeholderOf n) v 0 s := by
  simp [strReplace, placeholderOf]

theorem phYEAR_def : placeholderOf "YEAR".data = phYEAR := rfl

theorem phDAY_def : placeholderOf "DAY".data = phDAY := rfl

theorem phAOC_def : placeholderOf "AOC_PATH".data = phAOC := rfl

theorem cargo_decomp :
    CARGO_TOML =
      cargoSeg1 ++ (phYEAR ++ (cargoSeg2 ++ (phDAY ++ (cargoSeg3 ++ (phAOC ++ cargoSeg4))))) := rfl

theorem main_decomp :
    MAIN_RS = mainSeg1 ++ (phYEAR ++ (mainSeg2 ++ (phDAY ++ mainSeg3))) := rfl

theorem lib_decomp :
    LIB_RS =
      libSeg1 ++ (phYEAR ++ (libSeg2 ++ (phDAY ++
        (libSeg3 ++ (phYEAR ++ (libSeg4 ++ (phDAY ++ libSeg5))))))) := rfl

-- One replacement pass over the build-manifest template, for each variable,
-- with the other two holes already holding either their placeholder or a
-- substituted value (any string not containing the pattern).

theorem cargo_step_Y (x2 x3 v : List Char) (h2 : ¬ phYEAR <:+: x2) (h3 : ¬ phYEAR <:+: x3) :
    replaceGo phYEAR v 0
      (cargoSeg1 ++ (phYEAR ++ (cargoSeg2 ++ (x2 ++ (cargoSeg3 ++ (x3 ++ cargoSeg4)))))) =
      cargoSeg1 ++ (v ++ (cargoSeg2 ++ (x2 ++ (cargoSeg3 ++ (x3 ++ cargoSeg4))))) := by
  have hni : ¬ phYEAR <:+: (cargoSeg2 ++ (x2 ++ (cargoSeg3 ++ (x3 ++ cargoSeg4)))) :=
    not_infix_append (by decide)
      (not_infix_append h2
        (not_infix_append (by decide)
          (not_infix_append h3 (by decide)
            (crossRefuteRightHead rfl (by decide)))
          (crossRefuteLeft (by decide)))
        (crossRefuteRightHead rfl (by decide)))
      (crossRefuteLeft (by decide))
  rw [replaceGo_append_split cargoSeg1
      (phYEAR ++ (cargoSeg2 ++ (x2 ++ (cargoSeg3 ++ (x3 ++ cargoSeg4)))))
      (by decide) (crossRefuteRightHead rfl (by decide)),
    replaceGo_consume (by decide), replaceGo_noOccur _ hni]

theorem cargo_step_D (x1 x3 v : List Char) (h1 : ¬ phDAY <:+: x1) (h3 : ¬ phDAY <:+: x3) :
    replaceGo phDAY v 0
      (cargoSeg1 ++ (x1 ++ (cargoSeg2 ++ (phDAY ++ (cargoSeg3 ++ (x3 ++ cargoSeg4)))))) =
      cargoSeg1 ++ (x1 ++ (cargoSeg2 ++ (v ++ (cargoSeg3 ++ (x3 ++ cargoSeg4))))) := by
  have hni : ¬ phDAY <:+: (cargoSeg3 ++ (x3 ++ cargoSeg4)) :=
    not_infix_append (by decide)
      (not_infix_append h3 (by decide) (crossRefuteRightHead rfl (by decide)))
      (crossRefuteLeft (by decide))
  rw [replaceGo_append_split cargoSeg1 _ (by decide) (crossRefuteLeft (by decide)),
    replaceGo_append_split x1
      (cargoSeg2 ++ (phDAY ++ (cargoSeg3 ++ (x3 ++ cargoSeg4))))
      h1 (crossRefuteRightHead rfl (by decide)),
    replaceGo_append_split cargoSeg2
      (phDAY ++ (cargoSeg3 ++ (x3 ++ cargoSeg4)))
      (by decide) (crossRefuteRightHead rfl (by decide)),
    replaceGo_consume (by decide), replaceGo_noOccur _ hni]

theorem cargo_step_A (x1 x2 v : List Char) (h1 : ¬ phAOC <:+: x1) (h2 : ¬ phAOC <:+: x2) :
    replaceGo phAOC v 0
      (cargoSeg1 ++ (x1 ++ (cargoSeg2 ++ (x2 ++ (cargoSeg3 ++ (phAOC ++ cargoSeg4)))))) =
      cargoSeg1 ++ (x1 ++ (cargoSeg2 ++ (x2 ++ (cargoSeg3 ++ (v ++ cargoSeg4))))) := by
  rw [replaceGo_append_split cargoSeg1 _ (by decide) (crossRefuteLeft (by decide)),
    replaceGo_append_split x1
      (cargoSeg2 ++ (x2 ++ (cargoSeg3 ++ (phAOC ++ cargoSeg4))))
      h1 (crossRefuteRightHead rfl (by decide)),
    replaceGo_append_split cargoSeg2 _ (by decide) (crossRefuteLeft (by decide)),
    replaceGo_append_split x2
      (cargoSeg3 ++ (phAOC ++ cargoSeg4))
      h2 (crossRefuteRightHead rfl (by decide)),
    replaceGo_append_split cargoSeg3
      (phAOC ++ cargoSeg4)
      (by decide) (crossRefuteRightHead rfl (by decide)),
    replaceGo_consume (by decide), replaceGo_noOccur _ (by decide)]

theorem libSeg3_split : libSeg3 = libSeg3c1 ++ (libSeg3c2 ++ libSeg3c3) := rfl

theorem libSeg5_split :
    libSeg5 = libSeg5c1 ++ (libSeg5c2 ++ (libSeg5c3 ++ (libSeg5c4 ++ libSeg5c5))) := rfl

theorem suffix_of_suffix_append {x a1 a2 : List Char} (h : x <:+ a1 ++ a2)
    (hlen : x.length ≤ a2.length) : x <:+ a2 := by
  obtain ⟨t, ht⟩ := h
  have hl : a1.length ≤ t.length := by
    have hlen2 := congrArg List.length ht
    simp only [List.length_append] at hlen2
    omega
  have hpre : a1 <+: t := by
    have h1 : a1 <+: t ++ x := by
      rw [ht]
      exact List.prefix_append _ _
    exact (List.isPrefix_append_of_length hl).mp h1
  obtain ⟨u, rfl⟩ := hpre
  rw [List.append_assoc] at ht
  exact ⟨u, List.append_cancel_left ht⟩

/-- Crossing refuter via the tail of the left side: when the left part ends
in `a2` (longer than the pattern), it is enough that `a2` ends in no proper
prefix of `p`. -/
theorem crossRefuteLeftTail {p a r : List Char} (a1 a2 : List Char) (hsplit : a = a1 ++ a2)
    (hlen : p.length ≤ a2.length + 1) (hs : leftSafe p a2 = true) :
    ∀ k, 0 < k → k < p.length → ¬ (p.take k <:+ a ∧ p.drop k <+: r) := by
  intro k hk hlt hc
  have hxlen : (p.take k).length ≤ a2.length := by
    rw [List.length_take]
    omega
  have hsuf0 : p.take k <:+ a1 ++ a2 := by
    rw [← hsplit]
    exact hc.1
  exact of_leftSafe hs k hk hlt (suffix_of_suffix_append hsuf0 hxlen)

theorem ni_libSeg3 (p : List Char) (h1 : ¬ p <:+: libSeg3c1) (h2 : ¬ p <:+: libSeg3c2)
    (h3 : ¬ p <:+: libSeg3c3) (s1 : leftSafe p libSeg3c1 = true)
    (s2 : leftSafe p libSeg3c2 = true) : ¬ p <:+: libSeg3 := by
  rw [libSeg3_split]
  exact not_infix_append h1 (not_infix_append h2 h3 (crossRefuteLeft s2)) (crossRefuteLeft s1)

theorem ni_libSeg5 (p : List Char) (h1 : ¬ p <:+: libSeg5c1) (h2 : ¬ p <:+: libSeg5c2)
    (h3 : ¬ p <:+: libSeg5c3) (h4 : ¬ p <:+: libSeg5c4) (h5 : ¬ p <:+: libSeg5c5)
    (s1 : leftSafe p libSeg5c1 = true) (s2 : leftSafe p libSeg5c2 = true)
    (s3 : leftSafe p libSeg5c3 = true) (s4 : leftSafe p libSeg5c4 = true) :
    ¬ p <:+: libSeg5 := by
  rw [libSeg5_split]
  exact not_infix_append h1
    (not_infix_append h2
      (not_infix_append h3
        (not_infix_append h4 h5 (crossRefuteLeft s4))
        (crossRefuteLeft s3))
      (crossRefuteLeft s2))
    (crossRefuteLeft s1)

theorem phY_ni_libSeg3 : ¬ phYEAR <:+: libSeg3 :=
  ni_libSeg3 _ (by decide) (by decide) (by decide) (by decide) (by decide)

theorem phD_ni_libSeg3 : ¬ phDAY <:+: libSeg3 :=
  ni_libSeg3 _ (by decide) (by decide) (by decide) (by decide) (by decide)

theorem phA_ni_libSeg3 : ¬ phAOC <:+: libSeg3 :=
  ni_libSeg3 _ (by decide) (by decide) (by decide) (by decide) (by decide)

theorem phY_ni_libSeg5 : ¬ phYEAR <:+: libSeg5 :=
  ni_libSeg5 _ (by decide) (by decide) (by decide) (by decide) (by decide) (by decide)
    (by decide) (by decide) (by decide)

theorem phD_ni_libSeg5 : ¬ phDAY <:+: libSeg5 :=
  ni_libSeg5 _ (by decide) (by decide) (by decide) (by decide) (by decide) (by decide)
    (by decide) (by decide) (by decide)

theorem phA_ni_libSeg5 : ¬ phAOC <:+: libSeg5 :=
  ni_libSeg5 _ (by decide) (by decide) (by decide) (by decide) (by decide) (by decide)
    (by decide) (by decide) (by decide)

-- Replacement passes over the entry-point stub template.

theorem main_step_Y (x2 v : List Char) (h2 : ¬ phYEAR <:+: x2) :
    replaceGo phYEAR v 0 (mainSeg1 ++ (phYEAR ++ (mainSeg2 ++ (x2 ++ mainSeg3)))) =
      mainSeg1 ++ (v ++ (mainSeg2 ++ (x2 ++ mainSeg3))) := by
  have hni : ¬ phYEAR <:+: (mainSeg2 ++ (x2 ++ mainSeg3)) :=
    not_infix_append (by decide)
      (not_infix_append h2 (by decide) (crossRefuteRightHead rfl (by decide)))
      (crossRefuteLeft (by decide))
  rw [replaceGo_append_split mainSeg1 (phYEAR ++ (mainSeg2 ++ (x2 ++ mainSeg3)))
      (by decide) (crossRefuteRightHead rfl (by decide)),
    replaceGo_consume (by decide), replaceGo_noOccur _ hni]

theorem main_step_D (x1 v : List Char) (h1 : ¬ phDAY <:+: x1) :
    replaceGo phDAY v 0 (mainSeg1 ++ (x1 ++ (mainSeg2 ++ (phDAY ++ mainSeg3)))) =
      mainSeg1 ++ (x1 ++ (mainSeg2 ++ (v ++ mainSeg3))) := by
  rw [replaceGo_append_split mainSeg1 _ (by decide) (crossRefuteLeft (by decide)),
    replaceGo_append_split x1 (mainSeg2 ++ (phDAY ++ mainSeg3)) h1
      (crossRefuteRightHead rfl (by decide)),
    replaceGo_append_split mainSeg2 (phDAY ++ mainSeg3) (by decide)
      (crossRefuteRightHead rfl (by decide)),
    replaceGo_consume (by decide), replaceGo_noOccur _ (by decide)]

theorem main_noop_A (x1 x2 v : List Char) (h1 : ¬ phAOC <:+: x1) (h2 : ¬ phAOC <:+: x2)
    (hcross1 : ∀ k, 0 < k → k < phAOC.length →
      ¬ (phAOC.take k <:+ x1 ∧ phAOC.drop k <+: (mainSeg2 ++ (x2 ++ mainSeg3)))) :
    replaceGo phAOC v 0 (mainSeg1 ++ (x1 ++ (mainSeg2 ++ (x2 ++ mainSeg3)))) =
      mainSeg1 ++ (x1 ++ (mainSeg2 ++ (x2 ++ mainSeg3))) := by
  have hni : ¬ phAOC <:+: (mainSeg1 ++ (x1 ++ (mainSeg2 ++ (x2 ++ mainSeg3)))) :=
    not_infix_append (by decide)
      (not_infix_append h1
        (not_infix_append (by decide)
          (not_infix_append h2 (by decide) (crossRefuteRightHead rfl (by decide)))
          (crossRefuteLeft (by decide)))
        hcross1)
      (crossRefuteLeft (by decide))
  exact replaceGo_noOccur _ hni

-- Replacement passes over the library stub template (two occurrences each
-- of the YEAR and DAY placeholders).

theorem lib_step_Y (x2 x4 v : List Char) (h2 : ¬ phYEAR <:+: x2) (h4 : ¬ phYEAR <:+: x4) :
    replaceGo phYEAR v 0
      (libSeg1 ++ (phYEAR ++ (libSeg2 ++ (x2 ++
        (libSeg3 ++ (phYEAR ++ (libSeg4 ++ (x4 ++ libSeg5)))))))) =
      libSeg1 ++ (v ++ (libSeg2 ++ (x2 ++
        (libSeg3 ++ (v ++ (libSeg4 ++ (x4 ++ libSeg5))))))) := by
  have hni2 : ¬ phYEAR <:+: (libSeg4 ++ (x4 ++ libSeg5)) :=
    not_infix_append (by decide)
      (not_infix_append h4 phY_ni_libSeg5 (crossRefuteRightHead rfl (by decide)))
      (crossRefuteLeft (by decide))
  rw [replaceGo_append_split libSeg1
      (phYEAR ++ (libSeg2 ++ (x2 ++ (libSeg3 ++ (phYEAR ++ (libSeg4 ++ (x4 ++ libSeg5)))))))
      (by decide) (crossRefuteRightHead rfl (by decide)),
    replaceGo_consume (by decide),
    replaceGo_append_split libSeg2
      (x2 ++ (libSeg3 ++ (phYEAR ++ (libSeg4 ++ (x4 ++ libSeg5)))))
      (by decide) (crossRefuteLeft (by decide)),
    replaceGo_append_split x2
      (libSeg3 ++ (phYEAR ++ (libSeg4 ++ (x4 ++ libSeg5))))
      h2 (crossRefuteRightHead rfl (by decide)),
    replaceGo_append_split libSeg3
      (phYEAR ++ (libSeg4 ++ (x4 ++ libSeg5)))
      phY_ni_libSeg3 (crossRefuteRightHead rfl (by decide)),
    replaceGo_consume (by decide), replaceGo_noOccur _ hni2]

theorem lib_step_D (x1 x3 v : List Char) (h1 : ¬ phDAY <:+: x1) (h3 : ¬ phDAY <:+: x3) :
    replaceGo phDAY v 0
      (libSeg1 ++ (x1 ++ (libSeg2 ++ (phDAY ++
        (libSeg3 ++ (x3 ++ (libSeg4 ++ (phDAY ++ libSeg5)))))))) =
      libSeg1 ++ (x1 ++ (libSeg2 ++ (v ++
        (libSeg3 ++ (x3 ++ (libSeg4 ++ (v ++ libSeg5))))))) := by
  rw [replaceGo_append_split libSeg1 _ (by decide) (crossRefuteLeft (by decide)),
    replaceGo_append_split x1
      (libSeg2 ++ (phDAY ++ (libSeg3 ++ (x3 ++ (libSeg4 ++ (phDAY ++ libSeg5))))))
      h1 (crossRefuteRightHead rfl (by decide)),
    replaceGo_append_split libSeg2
      (phDAY ++ (libSeg3 ++ (x3 ++ (libSeg4 ++ (phDAY ++ libSeg5)))))
      (by decide) (crossRefuteRightHead rfl (by decide)),
    replaceGo_consume (by decide),
    replaceGo_append_split libSeg3
      (x3 ++ (libSeg4 ++ (phDAY ++ libSeg5)))
      phD_ni_libSeg3
      (crossRefuteLeftTail (libSeg3c1 ++ libSeg3c2) libSeg3c3 rfl (by decide) (by decide)),
    replaceGo_append_split x3
      (libSeg4 ++ (phDAY ++ libSeg5))
      h3 (crossRefuteRightHead rfl (by decide)),
    replaceGo_append_split libSeg4
      (phDAY ++ libSeg5)
      (by decide) (crossRefuteRightHead rfl (by decide)),
    replaceGo_consume (by decide), replaceGo_noOccur _ phD_ni_libSeg5]

theorem lib_noop_A (x1 x2 x3 x4 v : List Char) (h1 : ¬ phAOC <:+: x1)
    (h2 : ¬ phAOC <:+: x2) (h3 : ¬ phAOC <:+: x3) (h4 : ¬ phAOC <:+: x4)
    (hcross3 : ∀ k, 0 < k → k < phAOC.length →
      ¬ (phAOC.take k <:+ x3 ∧ phAOC.drop k <+: (libSeg4 ++ (x4 ++ libSeg5)))) :
    replaceGo phAOC v 0
      (libSeg1 ++ (x1 ++ (libSeg2 ++ (x2 ++
        (libSeg3 ++ (x3 ++ (libSeg4 ++ (x4 ++ libSeg5)))))))) =
      libSeg1 ++ (x1 ++ (libSeg2 ++ (x2 ++
        (libSeg3 ++ (x3 ++ (libSeg4 ++ (x4 ++ libSeg5))))))) := by
  have hni : ¬ phAOC <:+:
      (libSeg1 ++ (x1 ++ (libSeg2 ++ (x2 ++
        (libSeg3 ++ (x3 ++ (libSeg4 ++ (x4 ++ libSeg5)))))))) :=
    not_infix_append (by decide)
      (not_infix_append h1
        (not_infix_append (by decide)
          (not_infix_append h2
            (not_infix_append phA_ni_libSeg3
              (not_infix_append h3
                (not_infix_append (by decide)
                  (not_infix_append h4 phA_ni_libSeg5 (crossRefuteRightHead rfl (by decide)))
                  (crossRefuteLeft (by decide)))
                hcross3)
              (crossRefuteLeftTail (libSeg3c1 ++ libSeg3c2) libSeg3c3 rfl (by decide) (by decide)))
            (crossRefuteRightHead rfl (by decide)))
          (crossRefuteLeft (by decide)))
        (crossRefuteRightHead rfl (by decide)))
      (crossRefuteLeft (by decide))
  exact replaceGo_noOccur _ hni


theorem strReplace_phY (v s : List Char) :
    strReplace s (placeholderOf ('Y' :: 'E' :: 'A' :: 'R' :: [])) v = replaceGo phYEAR v 0 s :=
  strReplace_ph _ v s

theorem strReplace_phD (v s : List Char) :
    strReplace s (placeholderOf ('D' :: 'A' :: 'Y' :: [])) v = replaceGo phDAY v 0 s :=
  strReplace_ph _ v s

theorem strReplace_phA (v s : List Char) :
    strReplace s (placeholderOf ('A' :: 'O' :: 'C' :: '_' :: 'P' :: 'A' :: 'T' :: 'H' :: [])) v =
      replaceGo phAOC v 0 s :=
  strReplace_ph _ v s

-- The rendered content of each template is independent of the iteration
-- order of the variable map, provided the library path string does not
-- itself contain the YEAR or DAY placeholder.


theorem cargo_render_perm (y d : Nat) (lib : List Char)
    (hY : ¬ phYEAR <:+: lib) (hD : ¬ phDAY <:+: lib)
    (vs : List (List Char × List Char)) (hperm : vs.Perm (canonicalVars lib y d)) :
    renderTemplate CARGO_TOML vs =
      cargoSeg1 ++ (natChars y ++ (cargoSeg2 ++ (natChars d ++ (cargoSeg3 ++ (lib ++ cargoSeg4))))) := by
  simp only [canonicalVars] at hperm
  rcases perm_three hperm with rfl | rfl | rfl | rfl | rfl | rfl
  · -- iteration order [AOC, YEAR, DAY]
    simp only [renderTemplate, List.foldl_cons, List.foldl_nil, strReplace_phY,
      strReplace_phD, strReplace_phA]
    rw [cargo_decomp,
      cargo_step_A phYEAR phDAY lib (by decide) (by decide),
      cargo_step_Y phDAY lib (natChars y) (by decide) hY,
      cargo_step_D (natChars y) lib (natChars d) (phDAY_not_in_natChars y) hD]
  · -- iteration order [AOC, DAY, YEAR]
    simp only [renderTemplate, List.foldl_cons, List.foldl_nil, strReplace_phY,
      strReplace_phD, strReplace_phA]
    rw [cargo_decomp,
      cargo_step_A phYEAR phDAY lib (by decide) (by decide),
      cargo_step_D phYEAR lib (natChars d) (by decide) hD,
      cargo_step_Y (natChars d) lib (natChars y) (phYEAR_not_in_natChars d) hY]
  · -- iteration order [YEAR, AOC, DAY]
    simp only [renderTemplate, List.foldl_cons, List.foldl_nil, strReplace_phY,
      strReplace_phD, strReplace_phA]
    rw [cargo_decomp,
      cargo_step_Y phDAY phAOC (natChars y) (by decide) (by decide),
      cargo_step_A (natChars y) phDAY lib (phAOC_not_in_natChars y) (by decide),
      cargo_step_D (natChars y) lib (natChars d) (phDAY_not_in_natChars y) hD]
  · -- iteration order [YEAR, DAY, AOC]
    simp only [renderTemplate, List.foldl_cons, List.foldl_nil, strReplace_phY,
      strReplace_phD, strReplace_phA]
    rw [cargo_decomp,
      cargo_step_Y phDAY phAOC (natChars y) (by decide) (by decide),
      cargo_step_D (natChars y) phAOC (natChars d) (phDAY_not_in_natChars y) (by decide),
      cargo_step_A (natChars y) (natChars d) lib (phAOC_not_in_natChars y) (phAOC_not_in_natChars d)]
  · -- iteration order [DAY, AOC, YEAR]
    simp only [renderTemplate, List.foldl_cons, List.foldl_nil, strReplace_phY,
      strReplace_phD, strReplace_phA]
    rw [cargo_decomp,
      cargo_step_D phYEAR phAOC (natChars d) (by decide) (by decide),
      cargo_step_A phYEAR (natChars d) lib (by decide) (phAOC_not_in_natChars d),
      cargo_step_Y (natChars d) lib (natChars y) (phYEAR_not_in_natChars d) hY]
  · -- iteration order [DAY, YEAR, AOC]
    simp only [renderTemplate, List.foldl_cons, List.foldl_nil, strReplace_phY,
      strReplace_phD, strReplace_phA]
    rw [cargo_decomp,
      cargo_step_D phYEAR phAOC (natChars d) (by decide) (by decide),
      cargo_step_Y (natChars d) phAOC (natChars y) (phYEAR_not_in_natChars d) (by decide),
      cargo_step_A (natChars y) (natChars d) lib (phAOC_not_in_natChars y) (phAOC_not_in_natChars d)]

theorem main_render_perm (y d : Nat) (lib : List Char)
    (hY : ¬ phYEAR <:+: lib) (hD : ¬ phDAY <:+: lib)
    (vs : List (List Char × List Char)) (hperm : vs.Perm (canonicalVars lib y d)) :
    renderTemplate MAIN_RS vs =
      mainSeg1 ++ (natChars y ++ (mainSeg2 ++ (natChars d ++ mainSeg3))) := by
  simp only [canonicalVars] at hperm
  rcases perm_three hperm with rfl | rfl | rfl | rfl | rfl | rfl
  · -- iteration order [AOC, YEAR, DAY]
    simp only [renderTemplate, List.foldl_cons, List.foldl_nil, strReplace_phY,
      strReplace_phD, strReplace_phA]
    rw [main_decomp,
      main_noop_A phYEAR phDAY lib (by decide) (by decide) (crossRefuteLeft (by decide)),
      main_step_Y phDAY (natChars y) (by decide),
      main_step_D (natChars y) (natChars d) (phDAY_not_in_natChars y)]
  · -- iteration order [AOC, DAY, YEAR]
    simp only [renderTemplate, List.foldl_cons, List.foldl_nil, strReplace_phY,
      strReplace_phD, strReplace_phA]
    rw [main_decomp,
      main_noop_A phYEAR phDAY lib (by decide) (by decide) (crossRefuteLeft (by decide)),
      main_step_D phYEAR (natChars d) (by decide),
      main_step_Y (natChars d) (natChars y) (phYEAR_not_in_natChars d)]
  · -- iteration order [YEAR, AOC, DAY]
    simp only [renderTemplate, List.foldl_cons, List.foldl_nil, strReplace_phY,
      strReplace_phD, strReplace_phA]
    rw [main_decomp,
      main_step_Y phDAY (natChars y) (by decide),
      main_noop_A (natChars y) phDAY lib (phAOC_not_in_natChars y) (by decide) (crossRefuteDigits rfl (natChars_mem_digits y)),
      main_step_D (natChars y) (natChars d) (phDAY_not_in_natChars y)]
  · -- iteration order [YEAR, DAY, AOC]
    simp only [renderTemplate, List.foldl_cons, List.foldl_nil, strReplace_phY,
      strReplace_phD, strReplace_phA]
    rw [main_decomp,
      main_step_Y phDAY (natChars y) (by decide),
      main_step_D (natChars y) (natChars d) (phDAY_not_in_natChars y),
      main_noop_A (natChars y) (natChars d) lib (phAOC_not_in_natChars y) (phAOC_not_in_natChars d) (crossRefuteDigits rfl (natChars_mem_digits y))]
  · -- iteration order [DAY, AOC, YEAR]
    simp only [renderTemplate, List.foldl_cons, List.foldl_nil, strReplace_phY,
      strReplace_phD, strReplace_phA]
    rw [main_decomp,
      main_step_D phYEAR (natChars d) (by decide),
      main_noop_A phYEAR (natChars d) lib (by decide) (phAOC_not_in_natChars d) (crossRefuteLeft (by decide)),
      main_step_Y (natChars d) (natChars y) (phYEAR_not_in_natChars d)]
  · -- iteration order [DAY, YEAR, AOC]
    simp only [renderTemplate, List.foldl_cons, List.foldl_nil, strReplace_phY,
      strReplace_phD, strReplace_phA]
    rw [main_decomp,
      main_step_D phYEAR (natChars d) (by decide),
      main_step_Y (natChars d) (natChars y) (phYEAR_not_in_natChars d),
      main_noop_A (natChars y) (natChars d) lib (phAOC_not_in_natChars y) (phAOC_not_in_natChars d) (crossRefuteDigits rfl (natChars_mem_digits y))]

theorem lib_render_perm (y d : Nat) (lib : List Char)
    (hY : ¬ phYEAR <:+: lib) (hD : ¬ phDAY <:+: lib)
    (vs : List (List Char × List Char)) (hperm : vs.Perm (canonicalVars lib y d)) :
    renderTemplate LIB_RS vs =
      libSeg1 ++ (natChars y ++ (libSeg2 ++ (natChars d ++
        (libSeg3 ++ (natChars y ++ (libSeg4 ++ (natChars d ++ libSeg5))))))) := by
  simp only [canonicalVars] at hperm
  rcases perm_three hperm with rfl | rfl | rfl | rfl | rfl | rfl
  · -- iteration order [AOC, YEAR, DAY]
    simp only [renderTemplate, List.foldl_cons, List.foldl_nil, strReplace_phY,
      strReplace_phD, strReplace_phA]
    rw [lib_decomp,
      lib_noop_A phYEAR phDAY phYEAR phDAY lib (by decide) (by decide) (by decide) (by decide) (crossRefuteLeft (by decide)),
      lib_step_Y phDAY phDAY (natChars y) (by decide) (by decide),
      lib_step_D (natChars y) (natChars y) (natChars d) (phDAY_not_in_natChars y) (phDAY_not_in_natChars y)]
  · -- iteration order [AOC, DAY, YEAR]
    simp only [renderTemplate, List.foldl_cons, List.foldl_nil, strReplace_phY,
      strReplace_phD, strReplace_phA]
    rw [lib_decomp,
      lib_noop_A phYEAR phDAY phYEAR phDAY lib (by decide) (by decide) (by decide) (by decide) (crossRefuteLeft (by decide)),
      lib_step_D phYEAR phYEAR (natChars d) (by decide) (by decide),
      lib_step_Y (natChars d) (natChars d) (natChars y) (phYEAR_not_in_natChars d) (phYEAR_not_in_natChars d)]
  · -- iteration order [YEAR, AOC, DAY]
    simp only [renderTemplate, List.foldl_cons, List.foldl_nil, strReplace_phY,
      strReplace_phD, strReplace_phA]
    rw [lib_decomp,
      lib_step_Y phDAY phDAY (natChars y) (by decide) (by decide),
      lib_noop_A (natChars y) phDAY (natChars y) phDAY lib (phAOC_not_in_natChars y) (by decide) (phAOC_not_in_natChars y) (by decide) (crossRefuteDigits rfl (natChars_mem_digits y)),
      lib_step_D (natChars y) (natChars y) (natChars d) (phDAY_not_in_natChars y) (phDAY_not_in_natChars y)]
  · -- iteration order [YEAR, DAY, AOC]
    simp only [renderTemplate, List.foldl_cons, List.foldl_nil, strReplace_phY,
      strReplace_phD, strReplace_phA]
    rw [lib_decomp,
      lib_step_Y phDAY phDAY (natChars y) (by decide) (by decide),
      lib_step_D (natChars y) (natChars y) (natChars d) (phDAY_not_in_natChars y) (phDAY_not_in_natChars y),
      lib_noop_A (natChars y) (natChars d) (natChars y) (natChars d) lib (phAOC_not_in_natChars y) (phAOC_not_in_natChars d) (phAOC_not_in_natChars y) (phAOC_not_in_natChars d) (crossRefuteDigits rfl (natChars_mem_digits y))]
  · -- iteration order [DAY, AOC, YEAR]
    simp only [renderTemplate, List.foldl_cons, List.foldl_nil, strReplace_phY,
      strReplace_phD, strReplace_phA]
    rw [lib_decomp,
      lib_step_D phYEAR phYEAR (natChars d) (by decide) (by decide),
      lib_noop_A phYEAR (natChars d) phYEAR (natChars d) lib (by decide) (phAOC_not_in_natChars d) (by decide) (phAOC_not_in_natChars d) (crossRefuteLeft (by decide)),
      lib_step_Y (natChars d) (natChars d) (natChars y) (phYEAR_not_in_natChars d) (phYEAR_not_in_natChars d)]
  · -- iteration order [DAY, YEAR, AOC]
    simp only [renderTemplate, List.foldl_cons, List.foldl_nil, strReplace_phY,
      strReplace_phD, strReplace_phA]
    rw [lib_decomp,
      lib_step_D phYEAR phYEAR (natChars d) (by decide) (by decide),
      lib_step_Y (natChars d) (natChars d) (natChars y) (phYEAR_not_in_natChars d) (phYEAR_not_in_natChars d),
      lib_noop_A (natChars y) (natChars d) (natChars y) (natChars d) lib (phAOC_not_in_natChars y) (phAOC_not_in_natChars d) (phAOC_not_in_natChars y) (phAOC_not_in_natChars d) (crossRefuteDigits rfl (natChars_mem_digits y))]

/-- C5 (counterexample): rendering is not independent of the iteration order
of the variable map for every library path: with library path "\x7bYEAR\x7d", the
iteration order AOC_PATH-first substitutes the path and then rewrites it
during the YEAR pass, while an order ending with AOC_PATH leaves it intact,
so two invocations of `write_files` differing only in map iteration order
produce different Cargo.toml contents. -/
theorem c5_counterexample :
    (List.reverse (canonicalVars "\x7bYEAR\x7d".data 2022 25)).Perm
      (canonicalVars "\x7bYEAR\x7d".data 2022 25) ∧
    fileAt (write_files ⟨[], []⟩ ["t"] (some "\x7bYEAR\x7d".data) testProvider 2022 25
        false id).2.files (["t"] ++ ["Cargo.toml"]) ≠
      fileAt (write_files ⟨[], []⟩ ["t"] (some "\x7bYEAR\x7d".data) testProvider 2022 25
        false List.reverse).2.files (["t"] ++ ["Cargo.toml"]) := by
  refine ⟨List.reverse_perm _, ?_⟩
  decide

/-- C5 (amended): template rendering is deterministic and independent of the
iteration order of the variable map for every (year, day, library_path)
whose library path string contains neither the \x7bYEAR\x7d nor the \x7bDAY\x7d
placeholder (the counterexample forces this restriction): any two
invocations of `write_files` differing only in the iteration order of the
variable map produce byte-identical rendered contents for the
build-manifest and both source-stub files. -/
theorem c5_render_order_independent (fs : FileSys) (target : PathC) (lib : List Char)
    (prov : Provider) (y d : Nat) (force : Bool)
    (sh1 sh2 : List (List Char × List Char) → List (List Char × List Char))
    (hY : ¬ "\x7bYEAR\x7d".data <:+: lib) (hD : ¬ "\x7bDAY\x7d".data <:+: lib)
    (hsh1 : (sh1 (canonicalVars lib y d)).Perm (canonicalVars lib y d))
    (hsh2 : (sh2 (canonicalVars lib y d)).Perm (canonicalVars lib y d))
    (s : List Char) (hprov : prov y d = Except.ok s)
    (hgo : pathExists fs target = false ∨ force = true) :
    fileAt (write_files fs target (some lib) prov y d force sh1).2.files
        (target ++ ["Cargo.toml"]) =
      fileAt (write_files fs target (some lib) prov y d force sh2).2.files
        (target ++ ["Cargo.toml"]) ∧
    fileAt (write_files fs target (some lib) prov y d force sh1).2.files
        (target ++ ["src", "main.rs"]) =
      fileAt (write_files fs target (some lib) prov y d force sh2).2.files
        (target ++ ["src", "main.rs"]) ∧
    fileAt (write_files fs target (some lib) prov y d force sh1).2.files
        (target ++ ["src", "lib.rs"]) =
      fileAt (write_files fs target (some lib) prov y d force sh2).2.files
        (target ++ ["src", "lib.rs"]) := by
  have hY' : ¬ phYEAR <:+: lib := hY
  have hD' : ¬ phDAY <:+: lib := hD
  have hc : (pathExists fs target && !force) = false := by
    rcases hgo with h | h <;> simp [h]
  rw [write_files_ok fs target lib prov y d force sh1 s hc hprov,
    write_files_ok fs target lib prov y d force sh2 s hc hprov]
  refine ⟨?_, ?_, ?_⟩ <;>
    simp [fileAt, List.append_right_inj,
      cargo_render_perm y d lib hY' hD' _ hsh1, cargo_render_perm y d lib hY' hD' _ hsh2,
      main_render_perm y d lib hY' hD' _ hsh1, main_render_perm y d lib hY' hD' _ hsh2,
      lib_render_perm y d lib hY' hD' _ hsh1, lib_render_perm y d lib hY' hD' _ hsh2]

theorem c5_witness :
    fileAt (write_files ⟨[], []⟩ ["t"] (some "../../aoc".data) testProvider 2022 25
        false id).2.files (["t"] ++ ["Cargo.toml"]) =
      fileAt (write_files ⟨[], []⟩ ["t"] (some "../../aoc".data) testProvider 2022 25
        false List.reverse).2.files (["t"] ++ ["Cargo.toml"]) ∧
    fileAt (write_files ⟨[], []⟩ ["t"] (some "../../aoc".data) testProvider 2022 25
        false id).2.files (["t"] ++ ["src", "main.rs"]) =
      fileAt (write_files ⟨[], []⟩ ["t"] (some "../../aoc".data) testProvider 2022 25
        false List.reverse).2.files (["t"] ++ ["src", "main.rs"]) ∧
    fileAt (write_files ⟨[], []⟩ ["t"] (some "../../aoc".data) testProvider 2022 25
        false id).2.files (["t"] ++ ["src", "lib.rs"]) =
      fileAt (write_files ⟨[], []⟩ ["t"] (some "../../aoc".data) testProvider 2022 25
        false List.reverse).2.files (["t"] ++ ["src", "lib.rs"]) :=
  c5_render_order_independent ⟨[], []⟩ ["t"] "../../aoc".data testProvider 2022 25 false
    id List.reverse (by decide) (by decide) (List.Perm.refl _) (List.reverse_perm _)
    "Test input for 2022/25\n".data rfl (Or.inl (by decide))
